import Mathlib

/-!
Verification of the node startup orchestrator in
src/crates/sui-node/src/lib.rs (SuiNode::start, SuiNode::wait,
build_node_server).

The startup routine is a sequential asynchronous computation that calls a
fixed collection of external constructors (store openers, the ledger-state
constructor, task spawners, server binders).  We embed it as a computation in
a writer-plus-error monad `StartM`: the writer component records, in order,
every external call the routine performs, and the error component records
whether the routine returned `Ok`, propagated an `Err` through the `?`
operator, or aborted through a panicking `.unwrap()`/`.expect(...)`.

The outcome of each fallible external call is an input, collected in `Env`;
the source file itself never inspects the contents of the values those calls
return, only whether they succeeded, so this is a faithful interface-level
embedding of the orchestrator.
-/

set_option linter.unusedVariables false

/-- Errors produced by the fallible external calls of `SuiNode::start` and
`build_node_server`.  Each constructor corresponds to one fallible call site
in src/crates/sui-node/src/lib.rs. -/
inductive Err where
  | genesisFailed
  | committeeFailed
  | checkpointOpenFailed
  | followerOpenFailed
  | eventNewFailed
  | eventInitFailed
  | connectFailed
  | activeAuthorityFailed
  | nodeSyncOpenFailed
  | validatorServiceFailed
  | bindFailed
  | rpcBuilderFailed
  | registerReadFailed
  | registerFullNodeFailed
  | registerBcsFailed
  | registerEventReadFailed
  | rpcStartFailed
  | wsBuilderFailed
  | wsRegisterFailed
  | wsStartFailed
  deriving DecidableEq, Repr

/-- External calls performed during startup, in source order.  One constructor
per call site of src/crates/sui-node/src/lib.rs (`connectLazy` is emitted once
per validator in the genesis validator set). -/
inductive Step where
  | genesisLoad
  | committeeLoad
  | authorityStoreOpen
  | checkpointStoreOpen
  | indexStoreOpen
  | followerStoreOpen
  | eventStoreNew
  | eventStoreInit
  | authorityStateNew
  | connectLazy
  | activeAuthorityNew
  | spawnGossip (degree : Nat)
  | spawnNodeSync
  | nodeSyncStoreOpen
  | spawnBatch
  | spawnPostProcessing
  | validatorServiceNew
  | addValidatorService
  | grpcBind
  | grpcServe
  | rpcBuilderNew
  | registerReadApi
  | registerFullNodeApi
  | registerBcsApi
  | registerEventReadApi
  | rpcStart
  | wsBuilderNew
  | registerEventStreamingApi
  | wsStart
  deriving DecidableEq, Repr

/-- Result of running (a piece of) the startup routine: a normal value, a
Rust `Err` propagated by `?`, or a Rust panic raised by `.unwrap()`. -/
inductive Outcome (α : Type) where
  | ok (a : α)
  | err (e : Err)
  | panicked (e : Err)
  deriving DecidableEq, Repr

/-- The startup monad: an outcome paired with the ordered list of external
calls that were performed. -/
abbrev StartM (α : Type) : Type := Outcome α × List Step

def StartM.bind {α β : Type} (x : StartM α) (f : α → StartM β) : StartM β :=
  match x with
  | (.ok a, tr) => ((f a).1, tr ++ (f a).2)
  | (.err e, tr) => (.err e, tr)
  | (.panicked e, tr) => (.panicked e, tr)

instance : Monad StartM where
  pure a := (.ok a, [])
  bind := StartM.bind

/-- An infallible external call: it is performed and succeeds. -/
def emit (s : Step) : StartM Unit :=
  (.ok (), [s])

/-- A fallible external call behind the `?` operator: the call is performed,
and either succeeds or propagates an error. -/
def tryCall (s : Step) (succeeds : Bool) (e : Err) : StartM Unit :=
  (if succeeds then .ok () else .err e, [s])

/-- The `connect_lazy(..).unwrap()` loop over the genesis validator set
(src lines 129-135): one call per validator; a failure is unwrapped, so it
panics at the first failing iteration instead of propagating an error. -/
def connectClients (numValidators : Nat) (succeeds : Bool) : StartM Unit :=
  if succeeds then (.ok (), List.replicate numValidators .connectLazy)
  else if numValidators = 0 then (.ok (), [])
  else (.panicked .connectFailed, [.connectLazy])

/-- Configuration surface of `NodeConfig` consumed by the orchestrator:
optional consensus configuration (presence determines the validator role),
the two feature flags, and the client-facing addresses.  Address values are
opaque to the orchestrator, so they are modelled as naturals. -/
structure NodeConfig where
  network_address : Nat
  metrics_address : Nat
  json_rpc_address : Nat
  websocket_address : Option Nat
  consensus_config : Option Unit
  enable_gossip : Bool
  enable_event_processing : Bool
  deriving DecidableEq, Repr

/-- Outcomes of the external world during one run of startup: whether each
fallible external call succeeds, and the size of the genesis validator set. -/
structure Env where
  genesis_ok : Bool
  committee_ok : Bool
  checkpoint_open_ok : Bool
  follower_open_ok : Bool
  event_new_ok : Bool
  event_init_ok : Bool
  connect_ok : Bool
  active_authority_ok : Bool
  node_sync_open_ok : Bool
  validator_service_ok : Bool
  bind_ok : Bool
  rpc_builder_ok : Bool
  register_read_ok : Bool
  register_full_node_ok : Bool
  register_bcs_ok : Bool
  register_event_read_ok : Bool
  rpc_start_ok : Bool
  ws_builder_ok : Bool
  ws_register_ok : Bool
  ws_start_ok : Bool
  num_validators : Nat
  deriving DecidableEq, Repr

/-- The same environment with every external call succeeding: the fault-free
world, used to compare a faulty run with the normal run. -/
def Env.allOk (env : Env) : Env :=
  { genesis_ok := true
    committee_ok := true
    checkpoint_open_ok := true
    follower_open_ok := true
    event_new_ok := true
    event_init_ok := true
    connect_ok := true
    active_authority_ok := true
    node_sync_open_ok := true
    validator_service_ok := true
    bind_ok := true
    rpc_builder_ok := true
    register_read_ok := true
    register_full_node_ok := true
    register_bcs_ok := true
    register_event_read_ok := true
    rpc_start_ok := true
    ws_builder_ok := true
    ws_register_ok := true
    ws_start_ok := true
    num_validators := env.num_validators }

/-- Modelled from the spec: `AuthorityState` (crate sui-core, not under src/)
is the external ledger-state black box.  The model records which optional
stores `SuiNode::start` passes to `AuthorityState::new`; per the spec the
`event_handler` capability accessor is "present iff event store configured". -/
structure AuthorityState where
  index_store : Option Unit
  event_store : Option Unit
  checkpoint_store : Option Unit
  event_handler : Option Unit
  deriving DecidableEq, Repr

/-- Modelled from the spec: `AuthorityState::new` stores the optional
capabilities it is given, and the event-handler capability is present exactly
when an event store was configured. -/
def AuthorityState.new (index_store event_store checkpoint_store : Option Unit) :
    AuthorityState :=
  { index_store := index_store
    event_store := event_store
    checkpoint_store := checkpoint_store
    event_handler := event_store }

/-- The replication task spawned from the `ActiveAuthority` controller:
either the validator gossip process (with its fan-out degree) or the
full-node node-sync process. -/
inductive ReplicationTask where
  | gossip (degree : Nat)
  | nodeSync
  deriving DecidableEq, Repr

/-- The composed node object (struct `SuiNode`, src lines 39-47): the set of
subsystem handles plus the shared ledger-state reference.  Handles carry no
information beyond their presence, so present handles are modelled as `Unit`
(the replication handle additionally records which task kind was spawned). -/
structure SuiNode where
  grpc_server : Unit
  json_rpc_service : Option Unit
  ws_subscription_service : Option Unit
  batch_subsystem_handle : Unit
  post_processing_subsystem_handle : Option Unit
  gossip_handle : Option ReplicationTask
  state : AuthorityState
  deriving DecidableEq, Repr

/-- Mode resolution, src line 117: `is_validator = consensus_config.is_some()`. -/
def is_validator (config : NodeConfig) : Bool :=
  config.consensus_config.isSome

/-- Mode resolution, src line 118: `is_node = !is_validator`. -/
def is_node (config : NodeConfig) : Bool :=
  !is_validator config

/-- Mode resolution, src line 120:
`should_start_follower = is_node || config.enable_gossip`. -/
def should_start_follower (config : NodeConfig) : Bool :=
  is_node config || config.enable_gossip

/-- Conditional registration of the event-read module (src lines 252-254):
performed exactly when the ledger state exposes an event-handler capability. -/
def register_event_read (env : Env) (state : AuthorityState) : StartM Unit :=
  match state.event_handler with
  | some _ => tryCall .registerEventReadApi env.register_event_read_ok .registerEventReadFailed
  | none => pure ()

/-- Conditional construction of the streaming-subscription (websocket) server
(src lines 263-276): built exactly when a websocket address is configured and
the ledger state exposes an event-handler capability. -/
def start_ws_server (env : Env) (state : AuthorityState) (config : NodeConfig) :
    StartM (Option Unit) :=
  match config.websocket_address, state.event_handler with
  | some _, some _ => do
      tryCall .wsBuilderNew env.ws_builder_ok .wsBuilderFailed
      tryCall .registerEventStreamingApi env.ws_register_ok .wsRegisterFailed
      tryCall .wsStart env.ws_start_ok .wsStartFailed
      pure (some ())
  | _, _ => pure none

/-- Embedding of `build_node_server` (src lines 236-278). -/
def build_node_server (env : Env) (state : AuthorityState) (config : NodeConfig) :
    StartM (Option Unit × Option Unit) :=
  -- Validators do not expose these APIs (src lines 241-244)
  if config.consensus_config.isSome then
    (.ok (none, none), [])
  else do
    tryCall .rpcBuilderNew env.rpc_builder_ok .rpcBuilderFailed
    tryCall .registerReadApi env.register_read_ok .registerReadFailed
    tryCall .registerFullNodeApi env.register_full_node_ok .registerFullNodeFailed
    tryCall .registerBcsApi env.register_bcs_ok .registerBcsFailed
    register_event_read env state
    tryCall .rpcStart env.rpc_start_ok .rpcStartFailed
    let ws_server_handle ← start_ws_server env state config
    pure (some (), ws_server_handle)

/-- Conditional opening of the checkpoint store (src lines 69-79): only when
consensus configuration is present. -/
def open_checkpoint_store (env : Env) (config : NodeConfig) : StartM (Option Unit) :=
  if config.consensus_config.isSome then do
    tryCall .checkpointStoreOpen env.checkpoint_open_ok .checkpointOpenFailed
    pure (some ())
  else
    pure none

/-- Conditional opening of the secondary-index store (src lines 81-88): only
when consensus configuration is absent. -/
def open_index_store (config : NodeConfig) : StartM (Option Unit) :=
  if config.consensus_config.isSome then
    pure none
  else do
    emit .indexStoreOpen
    pure (some ())

/-- Conditional opening and initial setup of the event store (src lines
92-99): only when event processing is enabled. -/
def open_event_store (env : Env) (config : NodeConfig) : StartM (Option Unit) :=
  if config.enable_event_processing then do
    tryCall .eventStoreNew env.event_new_ok .eventNewFailed
    tryCall .eventStoreInit env.event_init_ok .eventInitFailed
    pure (some ())
  else
    pure none

/-- Replication subsystem selection (src lines 122-160): when
`should_start_follower` holds, build the validator clients and the
`ActiveAuthority` controller, then spawn the gossip process for a validator
and the node-sync process (with its dedicated pending-sync store) for a full
node; otherwise spawn nothing. -/
def spawn_replication (env : Env) (config : NodeConfig) :
    StartM (Option ReplicationTask) :=
  if should_start_follower config then do
    connectClients env.num_validators env.connect_ok
    tryCall .activeAuthorityNew env.active_authority_ok .activeAuthorityFailed
    if is_validator config then do
      -- TODO in source: get degree from config file.
      let degree := 4
      emit (.spawnGossip degree)
      pure (some (ReplicationTask.gossip degree))
    else do
      tryCall .nodeSyncStoreOpen env.node_sync_open_ok .nodeSyncOpenFailed
      emit .spawnNodeSync
      pure (some ReplicationTask.nodeSync)
  else
    pure none

/-- Conditional spawning of the post-processing task (src lines 173-184):
only when a secondary-index store is present or event processing is
enabled. -/
def spawn_post_processing (config : NodeConfig) (index_store : Option Unit) :
    StartM (Option Unit) :=
  if index_store.isSome || config.enable_event_processing then do
    emit .spawnPostProcessing
    pure (some ())
  else
    pure none

/-- Conditional construction of the validator service (src lines 186-190):
only when consensus configuration is present. -/
def create_validator_service (env : Env) (config : NodeConfig) :
    StartM (Option Unit) :=
  if config.consensus_config.isSome then do
    tryCall .validatorServiceNew env.validator_service_ok .validatorServiceFailed
    pure (some ())
  else
    pure none

/-- Registration of the validator service on the shared server builder (src
lines 195-198): performed exactly when a validator service was built. -/
def add_validator_service (validator_service : Option Unit) : StartM Unit :=
  match validator_service with
  | some _ => emit .addValidatorService
  | none => pure ()

/-- Embedding of `SuiNode::start` (src lines 50-222). -/
def start (env : Env) (config : NodeConfig) : StartM SuiNode := do
  tryCall .genesisLoad env.genesis_ok .genesisFailed
  tryCall .committeeLoad env.committee_ok .committeeFailed
  emit .authorityStoreOpen
  let checkpoint_store ← open_checkpoint_store env config
  let index_store ← open_index_store config
  tryCall .followerStoreOpen env.follower_open_ok .followerOpenFailed
  let event_store ← open_event_store env config
  emit .authorityStateNew
  let state := AuthorityState.new index_store event_store checkpoint_store
  let gossip_handle ← spawn_replication env config
  emit .spawnBatch
  let post_processing_subsystem_handle ← spawn_post_processing config index_store
  let validator_service ← create_validator_service env config
  add_validator_service validator_service
  tryCall .grpcBind env.bind_ok .bindFailed
  emit .grpcServe
  let srv ← build_node_server env state config
  pure {
    grpc_server := ()
    json_rpc_service := srv.1
    ws_subscription_service := srv.2
    batch_subsystem_handle := ()
    post_processing_subsystem_handle := post_processing_subsystem_handle
    gossip_handle := gossip_handle
    state := state }

/-- Identifiers of the subsystem handles a `SuiNode` holds. -/
inductive HandleId where
  | grpcServer
  | jsonRpcService
  | wsSubscriptionService
  | batchSubsystem
  | postProcessingSubsystem
  | replication
  deriving DecidableEq, Repr

/-- Eventual results of the spawned tasks, supplied by the runtime: for each
`JoinHandle<Result<()>>` a join result wrapping the task's own result, and
for the replication `JoinHandle<()>` just the join result. -/
structure TaskOutcomes where
  grpc_join : Except Err (Except Err Unit)
  batch_join : Except Err (Except Err Unit)
  post_processing_join : Except Err (Except Err Unit)
  replication_join : Except Err Unit
  deriving Repr

/-- Embedding of `SuiNode::wait` (src lines 229-233): await the grpc-server
handle only (`self.grpc_server.await??`).  Returns the propagated result and
the list of handles that were joined. -/
def SuiNode.wait (node : SuiNode) (r : TaskOutcomes) :
    Except Err Unit × List HandleId :=
  (match r.grpc_join with
   | .error e => .error e
   | .ok (.error e) => .error e
   | .ok (.ok _) => .ok (), [.grpcServer])

/-- Embedding of `SuiNode::state` (src lines 224-226): return a new shared
reference to the ledger state. -/
def SuiNode.get_state (node : SuiNode) : AuthorityState :=
  node.state

@[simp]
theorem StartM.monad_bind {α β : Type} (x : StartM α) (f : α → StartM β) :
    x >>= f = StartM.bind x f := rfl

@[simp]
theorem StartM.monad_pure {α : Type} (a : α) :
    (pure a : StartM α) = (.ok a, []) := rfl

theorem StartM.bind_eq_ok {α β : Type} {x : StartM α} {f : α → StartM β}
    {b : β} {tr : List Step} :
    StartM.bind x f = (.ok b, tr) ↔
      ∃ a tra trb, x = (.ok a, tra) ∧ f a = (.ok b, trb) ∧ tr = tra ++ trb := by
  obtain ⟨o, trx⟩ := x
  cases o with
  | ok a =>
    constructor
    · intro h
      refine ⟨a, trx, (f a).2, rfl, ?_, (congrArg Prod.snd h).symm⟩
      have h1 : (f a).1 = Outcome.ok b := congrArg Prod.fst h
      have he : f a = ((f a).1, (f a).2) := rfl
      rw [he, h1]
    · rintro ⟨a2, tra, trb, h1, h2, h3⟩
      have ha : Outcome.ok a = Outcome.ok a2 := congrArg Prod.fst h1
      have htr : trx = tra := congrArg Prod.snd h1
      cases ha
      show ((f a).1, trx ++ (f a).2) = (Outcome.ok b, tr)
      rw [h2, h3, htr]
  | err e =>
    constructor
    · intro h
      have h1 := congrArg Prod.fst h
      simp [StartM.bind] at h1
    · rintro ⟨a', tra, trb, h1, h2, h3⟩
      have h4 := congrArg Prod.fst h1
      simp at h4
  | panicked e =>
    constructor
    · intro h
      have h1 := congrArg Prod.fst h
      simp [StartM.bind] at h1
    · rintro ⟨a', tra, trb, h1, h2, h3⟩
      have h4 := congrArg Prod.fst h1
      simp at h4

theorem tryCall_eq_ok {s : Step} {fl : Bool} {e : Err} {a : Unit} {tr : List Step} :
    tryCall s fl e = (.ok a, tr) ↔ fl = true ∧ tr = [s] := by
  cases fl <;> simp [tryCall, eq_comm]

theorem emit_eq_ok {s : Step} {a : Unit} {tr : List Step} :
    emit s = (.ok a, tr) ↔ tr = [s] := by
  simp [emit, eq_comm]

theorem pure_eq_ok {α : Type} {v b : α} {tr : List Step} :
    (pure v : StartM α) = (.ok b, tr) ↔ b = v ∧ tr = [] := by
  simp [Prod.ext_iff, eq_comm]

theorem connectClients_eq_ok {n : Nat} {fl : Bool} {a : Unit} {tr : List Step} :
    connectClients n fl = (.ok a, tr) ↔
      (fl = true ∧ tr = List.replicate n .connectLazy)
      ∨ (fl = false ∧ n = 0 ∧ tr = []) := by
  cases fl <;> cases n <;> simp [connectClients, eq_comm]

/-- The ledger state a successful run of `start` constructs, as a function of
the configuration alone. -/
def okState (config : NodeConfig) : AuthorityState :=
  AuthorityState.new
    (if config.consensus_config.isSome then none else some ())
    (if config.enable_event_processing then some () else none)
    (if config.consensus_config.isSome then some () else none)

/-- The node object a successful run of `start` returns, as a function of the
configuration alone. -/
def okNode (config : NodeConfig) : SuiNode :=
  { grpc_server := ()
    json_rpc_service := if config.consensus_config.isSome then none else some ()
    ws_subscription_service :=
      if config.consensus_config.isSome then none
      else if config.websocket_address.isSome && config.enable_event_processing then
        some ()
      else none
    batch_subsystem_handle := ()
    post_processing_subsystem_handle :=
      if !config.consensus_config.isSome || config.enable_event_processing then
        some ()
      else none
    gossip_handle :=
      if should_start_follower config then
        some (if is_validator config then ReplicationTask.gossip 4
              else ReplicationTask.nodeSync)
      else none
    state := okState config }

/-- The full sequence of external calls a successful run of `start` performs,
as a function of the configuration and the validator-set size. -/
def okTrace (n : Nat) (config : NodeConfig) : List Step :=
  [.genesisLoad, .committeeLoad, .authorityStoreOpen]
  ++ (if config.consensus_config.isSome then [.checkpointStoreOpen] else [.indexStoreOpen])
  ++ [.followerStoreOpen]
  ++ (if config.enable_event_processing then [.eventStoreNew, .eventStoreInit] else [])
  ++ [.authorityStateNew]
  ++ (if should_start_follower config then
        List.replicate n .connectLazy ++ [.activeAuthorityNew]
        ++ (if is_validator config then [.spawnGossip 4]
            else [.nodeSyncStoreOpen, .spawnNodeSync])
      else [])
  ++ [.spawnBatch]
  ++ (if !config.consensus_config.isSome || config.enable_event_processing then
        [.spawnPostProcessing]
      else [])
  ++ (if config.consensus_config.isSome then [.validatorServiceNew, .addValidatorService]
      else [])
  ++ [.grpcBind, .grpcServe]
  ++ (if config.consensus_config.isSome then []
      else
        [.rpcBuilderNew, .registerReadApi, .registerFullNodeApi, .registerBcsApi]
        ++ (if config.enable_event_processing then [.registerEventReadApi] else [])
        ++ [.rpcStart]
        ++ (if config.websocket_address.isSome && config.enable_event_processing then
              [.wsBuilderNew, .registerEventStreamingApi, .wsStart]
            else []))

/-- The external-call successes that a successful run of `start` requires of
its environment. -/
def FlagsOk (env : Env) (config : NodeConfig) : Prop :=
  env.genesis_ok = true ∧ env.committee_ok = true ∧ env.follower_open_ok = true
  ∧ env.bind_ok = true
  ∧ (config.consensus_config.isSome = true →
      env.checkpoint_open_ok = true ∧ env.validator_service_ok = true)
  ∧ (config.enable_event_processing = true →
      env.event_new_ok = true ∧ env.event_init_ok = true)
  ∧ (should_start_follower config = true →
      (env.connect_ok = true ∨ env.num_validators = 0) ∧ env.active_authority_ok = true)
  ∧ (should_start_follower config = true ∧ is_validator config = false →
      env.node_sync_open_ok = true)
  ∧ (config.consensus_config.isSome = false →
      env.rpc_builder_ok = true ∧ env.register_read_ok = true
      ∧ env.register_full_node_ok = true ∧ env.register_bcs_ok = true
      ∧ env.rpc_start_ok = true)
  ∧ (config.consensus_config.isSome = false ∧ config.enable_event_processing = true →
      env.register_event_read_ok = true)
  ∧ (config.consensus_config.isSome = false ∧ config.enable_event_processing = true
      ∧ config.websocket_address.isSome = true →
      env.ws_builder_ok = true ∧ env.ws_register_ok = true ∧ env.ws_start_ok = true)

theorem bool_false_eq_true : (false = true) ↔ False := by simp

theorem bool_true_eq_false : (true = false) ↔ False := by simp

set_option maxHeartbeats 40000000 in
/-- Characterization of every successful run of `start`: the returned node and
the performed external calls are determined by the configuration (and the
validator-set size), and every fallible call on the configuration's path must
have succeeded. -/
theorem start_ok_char {env : Env} {config : NodeConfig} {node : SuiNode}
    {tr : List Step} (h : start env config = (.ok node, tr)) :
    node = okNode config ∧ tr = okTrace env.num_validators config ∧ FlagsOk env config := by
  rcases config with ⟨na, ma, ja, ws, cc, g, ev⟩
  rcases cc with _ | ⟨⟩ <;> cases g <;> cases ev <;> rcases ws with _ | ⟨a⟩ <;>
    (simp only [start, build_node_server, open_checkpoint_store, open_index_store,
        open_event_store, spawn_replication, spawn_post_processing,
        create_validator_service, add_validator_service, register_event_read,
        start_ws_server, should_start_follower, is_validator, is_node,
        AuthorityState.new, StartM.monad_bind, StartM.monad_pure, StartM.bind_eq_ok,
        tryCall_eq_ok, emit_eq_ok, pure_eq_ok, connectClients_eq_ok,
        Option.isSome_some, Option.isSome_none, Bool.not_true, Bool.not_false,
        Bool.false_or, Bool.true_or, Bool.or_false, Bool.or_true, Bool.or_self,
        Bool.and_true, Bool.true_and, Bool.and_false, Bool.false_and, Bool.and_self,
        bool_false_eq_true, bool_true_eq_false, Outcome.ok.injEq, Option.some.injEq,
        eq_self_iff_true, if_true, if_false, ite_true, ite_false, true_and, and_true,
        false_and, and_false, false_or, or_false, exists_const,
        and_assoc, exists_and_left, exists_eq_left, exists_eq_left',
        List.cons_append, List.nil_append, List.append_assoc, List.singleton_append,
        Prod.mk.injEq, SuiNode.mk.injEq, AuthorityState.mk.injEq] at h
     simp only [okNode, okTrace, okState, FlagsOk, should_start_follower, is_validator,
        is_node, AuthorityState.new, Option.isSome_some, Option.isSome_none,
        Bool.not_true, Bool.not_false, Bool.false_or, Bool.true_or, Bool.or_false,
        Bool.or_true, Bool.and_true, Bool.true_and, Bool.and_false, Bool.false_and,
        Bool.and_self, eq_self_iff_true, if_true, if_false, ite_true, ite_false,
        true_and, and_true, bool_false_eq_true, bool_true_eq_false,
        false_and, and_false, false_or, or_false, and_assoc,
        List.cons_append, List.nil_append, List.append_assoc, List.singleton_append]
     aesop)


/-- The startup step that reports a given error: each error constructor is
produced by exactly one external call site. -/
def stepOfErr : Err → Step
  | .genesisFailed => .genesisLoad
  | .committeeFailed => .committeeLoad
  | .checkpointOpenFailed => .checkpointStoreOpen
  | .followerOpenFailed => .followerStoreOpen
  | .eventNewFailed => .eventStoreNew
  | .eventInitFailed => .eventStoreInit
  | .connectFailed => .connectLazy
  | .activeAuthorityFailed => .activeAuthorityNew
  | .nodeSyncOpenFailed => .nodeSyncStoreOpen
  | .validatorServiceFailed => .validatorServiceNew
  | .bindFailed => .grpcBind
  | .rpcBuilderFailed => .rpcBuilderNew
  | .registerReadFailed => .registerReadApi
  | .registerFullNodeFailed => .registerFullNodeApi
  | .registerBcsFailed => .registerBcsApi
  | .registerEventReadFailed => .registerEventReadApi
  | .rpcStartFailed => .rpcStart
  | .wsBuilderFailed => .wsBuilderNew
  | .wsRegisterFailed => .registerEventStreamingApi
  | .wsStartFailed => .wsStart

/-- A faulty run simulates the fault-free run: if it succeeds it coincides
with the fault-free run, its performed calls are a prefix of the fault-free
call sequence, a propagated error is reported by the last performed call, and
a panic arises only in the connect loop, at the last performed call. -/
def Sim {α : Type} (x y : StartM α) : Prop :=
  (∀ a, x.1 = Outcome.ok a → x = y)
  ∧ x.2 <+: y.2
  ∧ (∀ e tr, x = (.err e, tr) → tr.getLast? = some (stepOfErr e))
  ∧ (∀ e tr, x = (.panicked e, tr) →
      e = Err.connectFailed ∧ tr.getLast? = some Step.connectLazy)

theorem bind_trace_initial {α β : Type} (y : StartM α) (g : α → StartM β) :
    y.2 <+: (StartM.bind y g).2 := by
  obtain ⟨o, trY⟩ := y
  cases o with
  | ok a => exact List.prefix_append _ _
  | err e => exact List.prefix_refl _
  | panicked e => exact List.prefix_refl _

theorem getLast?_append_left {l1 l2 : List Step} {s : Step}
    (h : l2.getLast? = some s) : (l1 ++ l2).getLast? = some s := by
  cases l2 with
  | nil => simp at h
  | cons b t => rw [List.getLast?_append_cons]; exact h

theorem bind_sim {α β : Type} {x y : StartM α} {f g : α → StartM β}
    (hxy : Sim x y) (hfg : ∀ a, Sim (f a) (g a)) :
    Sim (StartM.bind x f) (StartM.bind y g) := by
  obtain ⟨hok, hpre, herr, hpan⟩ := hxy
  obtain ⟨o, trx⟩ := x
  cases o with
  | ok a =>
    have hy : y = (Outcome.ok a, trx) := (hok a rfl).symm
    subst hy
    obtain ⟨fok, fpre, ferr, fpan⟩ := hfg a
    obtain ⟨t, ht⟩ := fpre
    refine ⟨?_, ?_, ?_, ?_⟩
    · intro b hb
      have hfg2 : f a = g a := fok b hb
      show ((f a).1, trx ++ (f a).2) = ((g a).1, trx ++ (g a).2)
      rw [hfg2]
    · exact ⟨t, by show trx ++ (f a).2 ++ t = trx ++ (g a).2; rw [List.append_assoc, ht]⟩
    · intro e tr h
      have h1 : (f a).1 = Outcome.err e := congrArg Prod.fst h
      have h2 : tr = trx ++ (f a).2 := (congrArg Prod.snd h).symm
      have h3 : f a = (Outcome.err e, (f a).2) := by
        have he : f a = ((f a).1, (f a).2) := rfl
        rw [he, h1]
      rw [h2]
      exact getLast?_append_left (ferr e (f a).2 h3)
    · intro e tr h
      have h1 : (f a).1 = Outcome.panicked e := congrArg Prod.fst h
      have h2 : tr = trx ++ (f a).2 := (congrArg Prod.snd h).symm
      have h3 : f a = (Outcome.panicked e, (f a).2) := by
        have he : f a = ((f a).1, (f a).2) := rfl
        rw [he, h1]
      obtain ⟨hce, h4⟩ := fpan e (f a).2 h3
      exact ⟨hce, by rw [h2]; exact getLast?_append_left h4⟩
  | err e =>
    refine ⟨?_, ?_, ?_, ?_⟩
    · intro a h
      have : Outcome.err (α := β) e = Outcome.ok a := h
      simp at this
    · show trx <+: (StartM.bind y g).2
      exact hpre.trans (bind_trace_initial y g)
    · intro e2 tr h
      have h1 : Outcome.err (α := β) e = Outcome.err e2 := congrArg Prod.fst h
      have h2 : trx = tr := congrArg Prod.snd h
      cases h1
      cases h2
      exact herr e trx rfl
    · intro e2 tr h
      have h1 : Outcome.err (α := β) e = Outcome.panicked e2 := congrArg Prod.fst h
      simp at h1
  | panicked e =>
    refine ⟨?_, ?_, ?_, ?_⟩
    · intro a h
      have : Outcome.panicked (α := β) e = Outcome.ok a := h
      simp at this
    · show trx <+: (StartM.bind y g).2
      exact hpre.trans (bind_trace_initial y g)
    · intro e2 tr h
      have h1 : Outcome.panicked (α := β) e = Outcome.err e2 := congrArg Prod.fst h
      simp at h1
    · intro e2 tr h
      have h1 : Outcome.panicked (α := β) e = Outcome.panicked e2 := congrArg Prod.fst h
      have h2 : trx = tr := congrArg Prod.snd h
      cases h1
      cases h2
      exact hpan e trx rfl

theorem sim_refl_ok {α : Type} (a : α) (tr : List Step) :
    Sim ((Outcome.ok a, tr) : StartM α) (Outcome.ok a, tr) := by
  refine ⟨fun _ _ => rfl, List.prefix_refl _, ?_, ?_⟩ <;>
    (intro e tr2 h; have h1 := congrArg Prod.fst h; simp at h1)

theorem sim_pure {α : Type} (a : α) : Sim (pure a : StartM α) (pure a) :=
  sim_refl_ok a []

theorem sim_emit (s : Step) : Sim (emit s) (emit s) :=
  sim_refl_ok () [s]

theorem sim_tryCall (s : Step) (fl : Bool) (e : Err) (hs : stepOfErr e = s) :
    Sim (tryCall s fl e) (tryCall s true e) := by
  cases fl with
  | true => exact sim_refl_ok () [s]
  | false =>
    refine ⟨?_, List.prefix_refl _, ?_, ?_⟩
    · intro a h
      simp [tryCall] at h
    · intro e2 tr h
      have h1 : Outcome.err (α := Unit) e = Outcome.err e2 := congrArg Prod.fst h
      have h2 : ([s] : List Step) = tr := congrArg Prod.snd h
      cases h1
      cases h2
      simp [hs]
    · intro e2 tr h
      have h1 : Outcome.err (α := Unit) e = Outcome.panicked e2 := congrArg Prod.fst h
      simp at h1

theorem sim_connectClients (n : Nat) (fl : Bool) :
    Sim (connectClients n fl) (connectClients n true) := by
  cases fl with
  | true => exact sim_refl_ok () (List.replicate n .connectLazy)
  | false =>
    cases n with
    | zero => exact sim_refl_ok () []
    | succ m =>
      refine ⟨?_, ?_, ?_, ?_⟩
      · intro a h
        simp [connectClients] at h
      · show [Step.connectLazy] <+: List.replicate (m + 1) Step.connectLazy
        exact ⟨List.replicate m Step.connectLazy, by simp [List.replicate_succ]⟩
      · intro e2 tr h
        have h1 : Outcome.panicked (α := Unit) Err.connectFailed = Outcome.err e2 :=
          congrArg Prod.fst h
        simp [connectClients] at h1
      · intro e2 tr h
        have h1 : Outcome.panicked (α := Unit) Err.connectFailed = Outcome.panicked e2 :=
          congrArg Prod.fst h
        have h2 : ([Step.connectLazy] : List Step) = tr := congrArg Prod.snd h
        cases h1
        cases h2
        simp

theorem sim_open_checkpoint_store (env : Env) (config : NodeConfig) :
    Sim (open_checkpoint_store env config) (open_checkpoint_store env.allOk config) := by
  unfold open_checkpoint_store
  simp only [Env.allOk]
  cases h : config.consensus_config.isSome
  · simp only [h, bool_false_eq_true, bool_true_eq_false, eq_self_iff_true,
        if_true, if_false, ite_true, ite_false]
    exact sim_pure _
  · simp only [h, bool_false_eq_true, bool_true_eq_false, eq_self_iff_true,
        if_true, if_false, ite_true, ite_false]
    exact bind_sim (sim_tryCall _ _ _ rfl) fun a => sim_pure _

theorem sim_open_event_store (env : Env) (config : NodeConfig) :
    Sim (open_event_store env config) (open_event_store env.allOk config) := by
  unfold open_event_store
  simp only [Env.allOk]
  cases h : config.enable_event_processing
  · simp only [h, bool_false_eq_true, bool_true_eq_false, eq_self_iff_true,
        if_true, if_false, ite_true, ite_false]
    exact sim_pure _
  · simp only [h, bool_false_eq_true, bool_true_eq_false, eq_self_iff_true,
        if_true, if_false, ite_true, ite_false]
    exact bind_sim (sim_tryCall _ _ _ rfl) fun a =>
      bind_sim (sim_tryCall _ _ _ rfl) fun a2 => sim_pure _

theorem sim_spawn_replication (env : Env) (config : NodeConfig) :
    Sim (spawn_replication env config) (spawn_replication env.allOk config) := by
  unfold spawn_replication
  simp only [Env.allOk]
  cases h : should_start_follower config
  · simp only [h, bool_false_eq_true, bool_true_eq_false, eq_self_iff_true,
        if_true, if_false, ite_true, ite_false]
    exact sim_pure _
  · simp only [h, bool_false_eq_true, bool_true_eq_false, eq_self_iff_true,
        if_true, if_false, ite_true, ite_false]
    refine bind_sim (sim_connectClients _ _) fun a => ?_
    refine bind_sim (sim_tryCall _ _ _ rfl) fun a2 => ?_
    cases h2 : is_validator config
    · simp only [h2, bool_false_eq_true, bool_true_eq_false, eq_self_iff_true,
        if_true, if_false, ite_true, ite_false]
      exact bind_sim (sim_tryCall _ _ _ rfl) fun a3 =>
        bind_sim (sim_emit _) fun a4 => sim_pure _
    · simp only [h2, bool_false_eq_true, bool_true_eq_false, eq_self_iff_true,
        if_true, if_false, ite_true, ite_false]
      exact bind_sim (sim_emit _) fun a3 => sim_pure _

theorem sim_create_validator_service (env : Env) (config : NodeConfig) :
    Sim (create_validator_service env config) (create_validator_service env.allOk config) := by
  unfold create_validator_service
  simp only [Env.allOk]
  cases h : config.consensus_config.isSome
  · simp only [h, bool_false_eq_true, bool_true_eq_false, eq_self_iff_true,
        if_true, if_false, ite_true, ite_false]
    exact sim_pure _
  · simp only [h, bool_false_eq_true, bool_true_eq_false, eq_self_iff_true,
        if_true, if_false, ite_true, ite_false]
    exact bind_sim (sim_tryCall _ _ _ rfl) fun a => sim_pure _

theorem sim_same_no_env {α : Type} (x : StartM α)
    (h : ∀ e tr, x ≠ (Outcome.err e, tr))
    (h2 : ∀ e tr, x ≠ (Outcome.panicked e, tr)) : Sim x x := by
  refine ⟨fun _ _ => rfl, List.prefix_refl _, ?_, ?_⟩
  · intro e tr he
    exact absurd he (h e tr)
  · intro e tr he
    exact absurd he (h2 e tr)

theorem sim_open_index_store (config : NodeConfig) :
    Sim (open_index_store config) (open_index_store config) := by
  unfold open_index_store
  cases h : config.consensus_config.isSome
  · simp only [h, bool_false_eq_true, bool_true_eq_false, eq_self_iff_true,
        if_true, if_false, ite_true, ite_false]
    exact bind_sim (sim_emit _) fun a => sim_pure _
  · simp only [h, bool_false_eq_true, bool_true_eq_false, eq_self_iff_true,
        if_true, if_false, ite_true, ite_false]
    exact sim_pure _

theorem sim_spawn_post_processing (config : NodeConfig) (ixs : Option Unit) :
    Sim (spawn_post_processing config ixs) (spawn_post_processing config ixs) := by
  unfold spawn_post_processing
  cases h : ixs.isSome || config.enable_event_processing
  · simp only [h, bool_false_eq_true, bool_true_eq_false, eq_self_iff_true,
        if_true, if_false, ite_true, ite_false]
    exact sim_pure _
  · simp only [h, bool_false_eq_true, bool_true_eq_false, eq_self_iff_true,
        if_true, if_false, ite_true, ite_false]
    exact bind_sim (sim_emit _) fun a => sim_pure _

theorem sim_add_validator_service (vs : Option Unit) :
    Sim (add_validator_service vs) (add_validator_service vs) := by
  unfold add_validator_service
  rcases vs with _ | ⟨⟩
  · exact sim_pure _
  · exact sim_emit _

theorem sim_register_event_read (env : Env) (state : AuthorityState) :
    Sim (register_event_read env state) (register_event_read env.allOk state) := by
  unfold register_event_read
  simp only [Env.allOk]
  rcases state.event_handler with _ | ⟨⟩
  · exact sim_pure _
  · exact sim_tryCall _ _ _ rfl

theorem sim_start_ws_server (env : Env) (state : AuthorityState) (config : NodeConfig) :
    Sim (start_ws_server env state config) (start_ws_server env.allOk state config) := by
  unfold start_ws_server
  simp only [Env.allOk]
  rcases config.websocket_address with _ | a <;> rcases state.event_handler with _ | ⟨⟩
  · exact sim_pure _
  · exact sim_pure _
  · exact sim_pure _
  · exact bind_sim (sim_tryCall _ _ _ rfl) fun a2 =>
      bind_sim (sim_tryCall _ _ _ rfl) fun a3 =>
        bind_sim (sim_tryCall _ _ _ rfl) fun a4 => sim_pure _

theorem sim_build_node_server (env : Env) (state : AuthorityState) (config : NodeConfig) :
    Sim (build_node_server env state config) (build_node_server env.allOk state config) := by
  unfold build_node_server
  simp only [Env.allOk]
  cases h : config.consensus_config.isSome
  · simp only [h, bool_false_eq_true, bool_true_eq_false, eq_self_iff_true,
        if_true, if_false, ite_true, ite_false]
    refine bind_sim (sim_tryCall _ _ _ rfl) fun a => ?_
    refine bind_sim (sim_tryCall _ _ _ rfl) fun a2 => ?_
    refine bind_sim (sim_tryCall _ _ _ rfl) fun a3 => ?_
    refine bind_sim (sim_tryCall _ _ _ rfl) fun a4 => ?_
    refine bind_sim (sim_register_event_read env state) fun a5 => ?_
    refine bind_sim (sim_tryCall _ _ _ rfl) fun a6 => ?_
    refine bind_sim (sim_start_ws_server env state config) fun a7 => ?_
    exact sim_pure _
  · simp only [h, bool_false_eq_true, bool_true_eq_false, eq_self_iff_true,
        if_true, if_false, ite_true, ite_false]
    exact sim_refl_ok (none, none) []

theorem start_sim (env : Env) (config : NodeConfig) :
    Sim (start env config) (start env.allOk config) := by
  unfold start
  simp only [Env.allOk]
  refine bind_sim (sim_tryCall _ _ _ rfl) fun a1 => ?_
  refine bind_sim (sim_tryCall _ _ _ rfl) fun a2 => ?_
  refine bind_sim (sim_emit _) fun a3 => ?_
  refine bind_sim (sim_open_checkpoint_store env config) fun checkpoint_store => ?_
  refine bind_sim (sim_open_index_store config) fun index_store => ?_
  refine bind_sim (sim_tryCall _ _ _ rfl) fun a4 => ?_
  refine bind_sim (sim_open_event_store env config) fun event_store => ?_
  refine bind_sim (sim_emit _) fun a5 => ?_
  refine bind_sim (sim_spawn_replication env config) fun gossip_handle => ?_
  refine bind_sim (sim_emit _) fun a6 => ?_
  refine bind_sim (sim_spawn_post_processing config index_store) fun post => ?_
  refine bind_sim (sim_create_validator_service env config) fun validator_service => ?_
  refine bind_sim (sim_add_validator_service validator_service) fun a7 => ?_
  refine bind_sim (sim_tryCall _ _ _ rfl) fun a8 => ?_
  refine bind_sim (sim_emit _) fun a9 => ?_
  refine bind_sim (sim_build_node_server env _ config) fun srv => ?_
  exact sim_pure _

set_option maxHeartbeats 4000000 in
/-- In the fault-free environment, `start` succeeds and performs exactly the
full startup sequence. -/
theorem start_allOk_eq (env : Env) (config : NodeConfig) :
    start env.allOk config =
      (.ok (okNode config), okTrace env.num_validators config) := by
  rcases config with ⟨na, ma, ja, ws, cc, g, ev⟩
  rcases cc with _ | ⟨⟩ <;> cases g <;> cases ev <;> rcases ws with _ | ⟨a⟩ <;>
    simp [start, build_node_server, open_checkpoint_store, open_index_store,
      open_event_store, spawn_replication, spawn_post_processing,
      create_validator_service, add_validator_service, register_event_read,
      start_ws_server, should_start_follower, is_validator, is_node, Env.allOk,
      AuthorityState.new, StartM.bind, tryCall, emit, connectClients,
      okNode, okTrace, okState]

/-- Any run of `start` performs an initial segment of the full startup
sequence: a failure aborts before any later external call is made. -/
theorem start_trace_initial (env : Env) (config : NodeConfig) :
    (start env config).2 <+: okTrace env.num_validators config := by
  have h := (start_sim env config).2.1
  rw [start_allOk_eq env config] at h
  exact h

/-- Sample environment in which every external call succeeds, with three
validators in genesis. -/
def envAllOk : Env :=
  ⟨true, true, true, true, true, true, true, true, true, true, true, true,
   true, true, true, true, true, true, true, true, 3⟩

/-- Sample environment in which building network clients to the validators
fails (and everything else succeeds). -/
def envConnectFail : Env :=
  ⟨true, true, true, true, true, true, false, true, true, true, true, true,
   true, true, true, true, true, true, true, true, 3⟩

/-- Sample validator configuration with gossip disabled. -/
def cfgValidator : NodeConfig := ⟨0, 1, 2, none, some (), false, false⟩

/-- Sample validator configuration with gossip enabled. -/
def cfgValidatorGossip : NodeConfig := ⟨0, 1, 2, none, some (), true, false⟩

/-- Sample full-node configuration with event processing enabled and a
websocket address configured. -/
def cfgFullNode : NodeConfig := ⟨0, 1, 2, some 9, none, false, true⟩

/-- Sample full-node configuration with the gossip flag set, event processing
disabled and no websocket address. -/
def cfgFullNodeGossip : NodeConfig := ⟨0, 1, 2, none, none, true, false⟩

/-- Environment in which opening the checkpoint store fails (everything else
succeeds). -/
def envCheckpointFail : Env :=
  ⟨true, true, false, true, true, true, true, true, true, true, true, true,
   true, true, true, true, true, true, true, true, 3⟩

/-- All-success task outcomes for the spawned subsystems. -/
def taskOutcomesOk : TaskOutcomes :=
  ⟨.ok (.ok ()), .ok (.ok ()), .ok (.ok ()), .ok ()⟩

/-- C1: `is_validator` is exactly the presence of consensus configuration,
`is_node` is its negation, and the derived flag `should_start_follower` (the
spec's `should_replicate`) equals `is_node OR enable_gossip`; hence for every
validator configuration it equals `enable_gossip`, and for every full-node
configuration it is `true` regardless of the gossip flag. -/
theorem C1_mode_resolution (config : NodeConfig) :
    is_validator config = config.consensus_config.isSome
    ∧ is_node config = (!config.consensus_config.isSome)
    ∧ should_start_follower config
        = (!config.consensus_config.isSome || config.enable_gossip)
    ∧ (is_validator config = true →
        should_start_follower config = config.enable_gossip)
    ∧ (is_node config = true → should_start_follower config = true) := by
  refine ⟨rfl, rfl, rfl, ?_, ?_⟩ <;> intro h <;>
    simp_all [should_start_follower, is_node, is_validator]

/-- Witness for C1 at a concrete validator and a concrete full-node
configuration. -/
theorem C1_mode_resolution_witness :
    should_start_follower cfgValidatorGossip = cfgValidatorGossip.enable_gossip
    ∧ should_start_follower cfgFullNode = true :=
  ⟨(C1_mode_resolution cfgValidatorGossip).2.2.2.1 (by decide),
   (C1_mode_resolution cfgFullNode).2.2.2.2 (by decide)⟩

/-- C2: in every successful run of `start` at most one replication task is
spawned: the gossip task exactly when `should_start_follower` holds and the
node is a validator, the node-sync task exactly when `should_start_follower`
holds and the node is a full node (a full node with the gossip flag set still
gets node-sync, never gossip), and no replication task at all when
`should_start_follower` is false. -/
theorem C2_replication_selection {env : Env} {config : NodeConfig}
    {node : SuiNode} {tr : List Step}
    (h : start env config = (.ok node, tr)) :
    ((∃ d, Step.spawnGossip d ∈ tr) ↔
      should_start_follower config = true ∧ is_validator config = true)
    ∧ (Step.spawnNodeSync ∈ tr ↔
      should_start_follower config = true ∧ is_node config = true)
    ∧ ¬((∃ d, Step.spawnGossip d ∈ tr) ∧ Step.spawnNodeSync ∈ tr)
    ∧ (should_start_follower config = false → node.gossip_handle = none) := by
  obtain ⟨hn, ht, _⟩ := start_ok_char h
  subst hn
  subst ht
  rcases config with ⟨na, ma, ja, ws, cc, g, ev⟩
  rcases cc with _ | ⟨⟩ <;> cases g <;> cases ev <;> rcases ws with _ | ⟨a⟩ <;>
    simp [okTrace, okNode, okState, should_start_follower, is_validator, is_node,
      List.mem_replicate, List.mem_append]

/-- Witness for C2: a successful full-node run with the gossip flag set spawns
the node-sync task. -/
theorem C2_replication_selection_witness :
    Step.spawnNodeSync ∈ okTrace 3 cfgFullNodeGossip :=
  (C2_replication_selection (by decide : start envAllOk cfgFullNodeGossip =
      (.ok (okNode cfgFullNodeGossip), okTrace 3 cfgFullNodeGossip))).2.1.mpr
    (by decide)

/-- C3: in every successful run of `start` the checkpoint store is opened iff
consensus configuration is present, the secondary-index store is opened iff it
is absent, and the two stores are never both present in the resulting node. -/
theorem C3_store_exclusivity {env : Env} {config : NodeConfig}
    {node : SuiNode} {tr : List Step}
    (h : start env config = (.ok node, tr)) :
    (Step.checkpointStoreOpen ∈ tr ↔ config.consensus_config.isSome = true)
    ∧ (Step.indexStoreOpen ∈ tr ↔ config.consensus_config.isSome = false)
    ∧ node.state.checkpoint_store.isSome = config.consensus_config.isSome
    ∧ node.state.index_store.isSome = (!config.consensus_config.isSome)
    ∧ ¬(node.state.checkpoint_store.isSome = true
        ∧ node.state.index_store.isSome = true) := by
  obtain ⟨hn, ht, _⟩ := start_ok_char h
  subst hn
  subst ht
  rcases config with ⟨na, ma, ja, ws, cc, g, ev⟩
  rcases cc with _ | ⟨⟩ <;> cases g <;> cases ev <;> rcases ws with _ | ⟨a⟩ <;>
    simp [okTrace, okNode, okState, AuthorityState.new, should_start_follower,
      is_validator, is_node, List.mem_replicate, List.mem_append]

/-- Witness for C3: a successful validator run opens the checkpoint store. -/
theorem C3_store_exclusivity_witness :
    Step.checkpointStoreOpen ∈ okTrace 3 cfgValidator :=
  (C3_store_exclusivity (by decide : start envAllOk cfgValidator =
      (.ok (okNode cfgValidator), okTrace 3 cfgValidator))).1.mpr (by decide)

/-- C4: when consensus configuration is present, `build_node_server` returns
successfully and immediately with no query-listener handle and no
subscription-listener handle, performing no external calls: validators expose
zero client-facing query endpoints. -/
theorem C4_validator_no_client_services (env : Env) (state : AuthorityState)
    (config : NodeConfig) (h : config.consensus_config.isSome = true) :
    build_node_server env state config = (.ok (none, none), []) := by
  simp [build_node_server, h]

/-- Witness for C4 at a concrete validator configuration. -/
theorem C4_validator_no_client_services_witness :
    build_node_server envAllOk (okState cfgValidator) cfgValidator
      = (.ok (none, none), []) :=
  C4_validator_no_client_services envAllOk (okState cfgValidator) cfgValidator
    (by decide)

/-- C5: in every successful run of `start`, a subscription (websocket)
listener handle is present iff the node is a full node AND event processing is
enabled AND a websocket address is configured. -/
theorem C5_subscription_listener {env : Env} {config : NodeConfig}
    {node : SuiNode} {tr : List Step}
    (h : start env config = (.ok node, tr)) :
    node.ws_subscription_service.isSome = true ↔
      is_node config = true ∧ config.enable_event_processing = true
        ∧ config.websocket_address.isSome = true := by
  obtain ⟨hn, _, _⟩ := start_ok_char h
  subst hn
  rcases config with ⟨na, ma, ja, ws, cc, g, ev⟩
  rcases cc with _ | ⟨⟩ <;> cases g <;> cases ev <;> rcases ws with _ | ⟨a⟩ <;>
    simp [okNode, okState, should_start_follower, is_validator, is_node]

/-- Witness for C5: a successful full-node run with event processing on and a
websocket address configured has a subscription handle. -/
theorem C5_subscription_listener_witness :
    (okNode cfgFullNode).ws_subscription_service.isSome = true :=
  (C5_subscription_listener (by decide : start envAllOk cfgFullNode =
      (.ok (okNode cfgFullNode), okTrace 3 cfgFullNode))).mpr
    ⟨by decide, by decide, by decide⟩

/-- C6: in every successful full-node run of `start`, the event-read module is
registered iff event processing is enabled (independently of the websocket
address), while the basic-read, full-node-read and binary-encoding-read
modules are always registered. -/
theorem C6_query_modules {env : Env} {config : NodeConfig}
    {node : SuiNode} {tr : List Step}
    (h : start env config = (.ok node, tr)) (hn : is_node config = true) :
    (Step.registerEventReadApi ∈ tr ↔ config.enable_event_processing = true)
    ∧ Step.registerReadApi ∈ tr
    ∧ Step.registerFullNodeApi ∈ tr
    ∧ Step.registerBcsApi ∈ tr := by
  obtain ⟨hn2, ht, _⟩ := start_ok_char h
  subst hn2
  subst ht
  rcases config with ⟨na, ma, ja, ws, cc, g, ev⟩
  rcases cc with _ | ⟨⟩ <;> cases g <;> cases ev <;> rcases ws with _ | ⟨a⟩ <;>
    simp_all [okTrace, should_start_follower, is_validator, is_node,
      List.mem_replicate, List.mem_append]

/-- Witness for C6: a successful run at the sample full-node configuration
with events enabled registers the event-read module. -/
theorem C6_query_modules_witness :
    Step.registerEventReadApi ∈ okTrace 3 cfgFullNode :=
  (C6_query_modules (by decide : start envAllOk cfgFullNode =
      (.ok (okNode cfgFullNode), okTrace 3 cfgFullNode)) (by decide)).1.mpr
    (by decide)

/-- C7: `wait` joins only the grpc-server (peer-listener) handle: the set of
joined handles is exactly that singleton, the result depends only on the grpc
task's outcome — the batch, post-processing, replication, query and
subscription outcomes are invisible to it — and the propagated failure is
exactly the grpc task's join error or task error. -/
theorem C7_wait_only_grpc (node : SuiNode) (r : TaskOutcomes) :
    (node.wait r).2 = [HandleId.grpcServer]
    ∧ (∀ (node2 : SuiNode) (r2 : TaskOutcomes), r2.grpc_join = r.grpc_join →
        (node2.wait r2).1 = (node.wait r).1)
    ∧ (∀ e, (node.wait r).1 = .error e ↔
        (r.grpc_join = .error e ∨ r.grpc_join = .ok (.error e))) := by
  refine ⟨rfl, ?_, ?_⟩
  · intro node2 r2 h2
    simp [SuiNode.wait, h2]
  · intro e
    rcases hg : r.grpc_join with e2 | res
    · simp [SuiNode.wait, hg]
    · rcases res with e2 | u <;> simp [SuiNode.wait, hg]

/-- Witness for C7 at a concrete node and concrete task outcomes. -/
theorem C7_wait_only_grpc_witness :
    ((okNode cfgFullNode).wait taskOutcomesOk).2 = [HandleId.grpcServer] :=
  (C7_wait_only_grpc (okNode cfgFullNode) taskOutcomesOk).1

/-- C8 counterexample: with a full-node configuration and a failing
network-client construction, `start` aborts by a panic (the source unwraps the
`connect_lazy` result), not by returning an error, so the claim that a
network-client construction failure propagates an error is false on this
code. -/
theorem C8_counterexample :
    (start envConnectFail cfgFullNode).1 = Outcome.panicked Err.connectFailed
    ∧ (start envConnectFail cfgFullNode).1 ≠ Outcome.err Err.connectFailed := by
  decide

/-- C8 (amended): failure handling of `start`.  Every run performs an initial
segment of the fault-free startup sequence, so a failing step aborts startup
before any later step is performed; a propagated error is reported by the
failing call itself, which is the last call performed; a panic arises only
from the network-client construction (`connect_lazy(..).unwrap()`), again as
the last call performed; and a successful run requires every fallible call on
the configuration's path to have succeeded, so no node object is returned when
a required step fails. -/
theorem C8_fatal_startup (env : Env) (config : NodeConfig) :
    ((start env config).2 <+: okTrace env.num_validators config)
    ∧ (∀ e tr, start env config = (Outcome.err e, tr) →
        tr.getLast? = some (stepOfErr e))
    ∧ (∀ e tr, start env config = (Outcome.panicked e, tr) →
        e = Err.connectFailed ∧ tr.getLast? = some Step.connectLazy)
    ∧ (∀ node tr, start env config = (Outcome.ok node, tr) →
        FlagsOk env config) := by
  refine ⟨start_trace_initial env config, (start_sim env config).2.2.1,
    (start_sim env config).2.2.2, ?_⟩
  intro node tr h
  exact (start_ok_char h).2.2

/-- Witness for C8: with a failing checkpoint-store open on a validator
configuration, the error is reported by the checkpoint-open call and it is the
last call performed. -/
theorem C8_fatal_startup_witness :
    ([Step.genesisLoad, Step.committeeLoad, Step.authorityStoreOpen,
      Step.checkpointStoreOpen] : List Step).getLast?
      = some (stepOfErr Err.checkpointOpenFailed) :=
  (C8_fatal_startup envCheckpointFail cfgValidator).2.1 Err.checkpointOpenFailed
    [Step.genesisLoad, Step.committeeLoad, Step.authorityStoreOpen,
     Step.checkpointStoreOpen] (by decide)

/-- C9: in every successful run of `start` the peer-facing listener is bound
and its serving task spawned (for validators and full nodes alike), and the
validator service is registered on it iff consensus configuration is
present. -/
theorem C9_peer_listener {env : Env} {config : NodeConfig}
    {node : SuiNode} {tr : List Step}
    (h : start env config = (.ok node, tr)) :
    Step.grpcBind ∈ tr ∧ Step.grpcServe ∈ tr
    ∧ (Step.addValidatorService ∈ tr ↔ config.consensus_config.isSome = true) := by
  obtain ⟨hn, ht, _⟩ := start_ok_char h
  subst hn
  subst ht
  rcases config with ⟨na, ma, ja, ws, cc, g, ev⟩
  rcases cc with _ | ⟨⟩ <;> cases g <;> cases ev <;> rcases ws with _ | ⟨a⟩ <;>
    simp [okTrace, should_start_follower, is_validator, is_node,
      List.mem_replicate, List.mem_append]

/-- Witness for C9: in the sample validator run the listener is bound. -/
theorem C9_peer_listener_witness :
    Step.grpcBind ∈ okTrace 3 cfgValidator :=
  (C9_peer_listener (by decide : start envAllOk cfgValidator =
      (.ok (okNode cfgValidator), okTrace 3 cfgValidator))).1

/-- C10: in every successful run of `start` that spawns the gossip task
(validator with gossip enabled), the fan-out degree passed to the gossip
process is the hard-coded constant 4, for every configuration alike. -/
theorem C10_gossip_degree {env : Env} {config : NodeConfig}
    {node : SuiNode} {tr : List Step}
    (h : start env config = (.ok node, tr))
    (hv : is_validator config = true) (hg : config.enable_gossip = true) :
    node.gossip_handle = some (ReplicationTask.gossip 4)
    ∧ Step.spawnGossip 4 ∈ tr
    ∧ (∀ d, Step.spawnGossip d ∈ tr → d = 4) := by
  obtain ⟨hn, ht, _⟩ := start_ok_char h
  subst hn
  subst ht
  rcases config with ⟨na, ma, ja, ws, cc, g, ev⟩
  rcases cc with _ | ⟨⟩ <;> cases g <;> cases ev <;> rcases ws with _ | ⟨a⟩ <;>
    simp_all [okTrace, okNode, okState, should_start_follower, is_validator,
      is_node, List.mem_replicate, List.mem_append]

/-- Witness for C10 at the sample gossiping-validator run. -/
theorem C10_gossip_degree_witness :
    (okNode cfgValidatorGossip).gossip_handle = some (ReplicationTask.gossip 4) :=
  (C10_gossip_degree (by decide : start envAllOk cfgValidatorGossip =
      (.ok (okNode cfgValidatorGossip), okTrace 3 cfgValidatorGossip))
    (by decide) (by decide)).1
